import Mathlib

/-!
Shallow embedding of the temple-vault core (governed key/value mutation
layer, sync router, query engine, secondary index, snapshot store), translated
from the Python sources:

* `src/temple_vault/bridge/memory_handler.py`  (`TempleMemoryHandler`)
* `src/mcpb/server/temple_vault/bridge/spiral_state.py` (`SpiralStateMachine`)
* `src/temple_vault/bridge/sync_router.py` (`HybridSyncRouter`)
* `src/temple_vault/core/cache.py` (`CacheBuilder`)
* `src/temple_vault/core/query.py` (`VaultQuery`)
* `src/mcpb/server/temple_vault/core/events.py` (`VaultEvents`)

Modelling conventions: the filesystem is explicit state (association lists of
path -> content); wall-clock timestamps are a logical `Nat` counter threaded
through the state; Python floats are rationals; JSON dict records become
structures holding the fields the code reads.  String scanning helpers are
written over `List Char` so that every definition reduces in the kernel.
-/

namespace TempleVault

/-- `p` is a prefix of `s` (models Python `str.startswith`). -/
def strStartsWith (s p : String) : Bool :=
  p.data.isPrefixOf s.data

/-- `p` is a suffix of `s` (models Python `str.endswith`). -/
def strEndsWith (s p : String) : Bool :=
  p.data.reverse.isPrefixOf s.data.reverse

/-- Character-list infix test, structural recursion. -/
def charsContain (p : List Char) : List Char → Bool
  | [] => p.isPrefixOf []
  | c :: rest => p.isPrefixOf (c :: rest) || charsContain p rest

/-- `p` occurs as a substring of `s` (models glob `*p*` matching a filename). -/
def strContainsSub (s p : String) : Bool :=
  charsContain p.data s.data

/-- Split a character list at separators chosen by `p`, keeping empty pieces
(models Python `str.split(sep)`). -/
def splitWhen (p : Char → Bool) : List Char → List (List Char)
  | [] => [[]]
  | c :: rest =>
    let r := splitWhen p rest
    if p c then [] :: r
    else
      match r with
      | [] => [[c]]
      | h :: t => (c :: h) :: t

/-! ## Sync router (`HybridSyncRouter`, sync_router.py) -/

/-- `NEVER_SYNC_PATTERNS` from sync_router.py. -/
def NEVER_SYNC_PATTERNS : List String :=
  ["technical/api_keys", "technical/ssh_configs", "technical/local_state",
   "technical/credentials", "spiral/state.json"]

/-- `ALWAYS_SYNC_PATTERNS` from sync_router.py. -/
def ALWAYS_SYNC_PATTERNS : List String :=
  ["experiential/insights", "experiential/transformations", "experiential/learnings"]

/-- `SYNC_WITH_REVIEW_PATTERNS` from sync_router.py. -/
def SYNC_WITH_REVIEW_PATTERNS : List String :=
  ["relational/values", "relational/lineage", "relational/convergence"]

/-- `HybridSyncRouter.classify_tier`: first matching pattern list wins,
otherwise `"default"`. -/
def classifyTier (key : String) : String :=
  if NEVER_SYNC_PATTERNS.any (fun p => strStartsWith key p || key == p) then
    "never_sync"
  else if ALWAYS_SYNC_PATTERNS.any (fun p => strStartsWith key p) then
    "always_sync"
  else if SYNC_WITH_REVIEW_PATTERNS.any (fun p => strStartsWith key p) then
    "sync_with_review"
  else
    "default"

/-- One memory-entry JSON value: an opaque payload plus the two metadata
fields `_add_metadata` can fill in (`timestamp`, `spiral_id`). -/
structure MemEntry where
  payload : String
  timestamp : Option Nat
  spiralId : Option String
deriving DecidableEq, Repr

/-- Serialization of a memory entry; stands in for `json.dumps(content,
sort_keys=True)`.  `_hash_content` (a truncated sha256 of this string) is
abstracted as the serialization itself: no claim depends on hash values,
only on whether a queue entry was appended. -/
def serializeEntry (e : MemEntry) : String :=
  e.payload ++ "|" ++ (toString (e.timestamp.getD 0)) ++ "|" ++ (e.spiralId.getD "")

/-- One line of `_sync/pending.jsonl` (`queue_for_sync` entry shape). -/
structure PendingEntry where
  key : String
  operation : String
  tier : String
  queuedAt : Nat
  status : String
  contentHash : Option String
deriving DecidableEq, Repr

/-- The sync router's persistent state: pending queue (`pending.jsonl`),
persisted counters (`sync_state.json`), and a logical clock standing in for
`datetime.now()`. -/
structure SyncState where
  pendingQueue : List PendingEntry
  pendingCount : Nat
  cloudEnabled : Bool
  clock : Nat
deriving DecidableEq, Repr

/-- `HybridSyncRouter.queue_for_sync`: no-op for `never_sync`, otherwise
appends a pending entry and bumps the persisted counter. -/
def queueForSync (s : SyncState) (key operation : String) (content : Option MemEntry) :
    SyncState :=
  let tier := classifyTier key
  if tier == "never_sync" then s
  else
    { s with
      pendingQueue := s.pendingQueue ++
        [{ key := key, operation := operation, tier := tier, queuedAt := s.clock,
           status := "pending", contentHash := content.map serializeEntry }]
      pendingCount := s.pendingCount + 1
      clock := s.clock + 1 }

/-- `HybridSyncRouter._cloud_fetch`: the backend placeholder in the source
returns `None` unconditionally. -/
def cloudFetch (_key : String) : Option (List MemEntry) := none

/-! ## Governance controller (`SpiralStateMachine`, spiral_state.py) -/

/-- The sensitive key prefixes checked inside `should_pause`. -/
def sensitivePatterns : List String :=
  ["technical/api_keys", "technical/credentials", "technical/ssh_configs"]

/-- `SpiralStateMachine.should_pause`: delete always pauses; creates/updates
to sensitive prefixes pause; otherwise create pauses when the restraint level
exceeds 0.8. -/
def shouldPause (restraintLevel : ℚ) (action key : String) : Bool :=
  if action == "delete" then true
  else if sensitivePatterns.any (fun p => strStartsWith key p)
          && (action == "create" || action == "update") then true
  else if decide (mkRat 4 5 < restraintLevel) && action == "create" then true
  else false

/-- One line of `spiral/governance.jsonl` (`record_governance_event` shape). -/
structure GovEvent where
  eventId : String
  decision : String
  reason : String
  context : String
  restraintScore : ℚ
  spiralId : String
  timestamp : Nat
deriving DecidableEq, Repr

/-- The fields of `spiral/state.json` the modelled operations touch, plus the
logical clock that stands in for `datetime.now()` (event IDs are derived from
it the way the source derives them from the wall-clock time). -/
structure SpiralState where
  spiralId : String
  restraintLevel : ℚ
  protocolsActive : List String
  governanceHistory : List String
  clock : Nat
deriving DecidableEq, Repr

/-! ## Memory handler (`TempleMemoryHandler`, memory_handler.py)

The controller's own files live *inside* the memory namespace: the handler
constructs `SpiralStateMachine(self.memories_dir / "spiral")`
(memory_handler.py:50), so `spiral/governance.jsonl` and `spiral/state.json`
are ordinary keys of the `memories/` tree, readable through `read` and
written by every `record_governance_event` (append to the log, rewrite of
the state document).  The model therefore keeps one file tree and routes
governance writes through it. -/

/-- One JSON line of a `.jsonl` partition: either a memory entry written by
`create`/`update`, or a governance event appended by
`record_governance_event` (the governance log is itself a `.jsonl` file in
the tree, so its lines are heterogeneous). -/
inductive JsonLine where
  | entry : MemEntry → JsonLine
  | gov : GovEvent → JsonLine
deriving DecidableEq, Repr

/-- Content of one file under `memories/`: a `.jsonl` partition is a list of
lines; any other key is a single JSON document — either a generic memory
entry or the controller state written by `_save_state` to
`spiral/state.json`. -/
inductive FileData where
  | jsonl : List JsonLine → FileData
  | doc : MemEntry → FileData
  | stateDoc : SpiralState → FileData
deriving DecidableEq, Repr

/-- The key of the governance log (`spiral_dir / "governance.jsonl"` with
`spiral_dir = memories_dir / "spiral"`). -/
def GOV_PATH : String := "spiral/governance.jsonl"

/-- The key of the persisted controller state (`spiral_dir / "state.json"`). -/
def STATE_PATH : String := "spiral/state.json"

/-- The memory handler's state: the `memories/` file tree (path -> content,
including the controller's own `spiral/*` files), the in-memory controller
state (`self._state`), and the sync router state. -/
structure HandlerState where
  memories : List (String × FileData)
  spiral : SpiralState
  sync : SyncState
deriving DecidableEq, Repr

/-- Create-or-overwrite a path in the memories tree (models `open(path, "w")`
followed by a full-document dump). -/
def setFileData : List (String × FileData) → String → FileData → List (String × FileData)
  | [], k, fd => [(k, fd)]
  | (k2, v) :: rest, k, fd =>
    if k2 = k then (k, fd) :: rest else (k2, v) :: setFileData rest k fd

/-- Remove a path from the memories tree (models `path.unlink()`). -/
def removeFileData : List (String × FileData) → String → List (String × FileData)
  | [], _ => []
  | (k2, v) :: rest, k =>
    if k2 = k then removeFileData rest k else (k2, v) :: removeFileData rest k

/-- Append one JSON line to a `.jsonl` file (models `open(path, "a")` plus a
one-line write).  A `.jsonl` key only ever holds `jsonl`-shaped data on the
write paths modelled here; appending a line to a document-shaped file (which
would leave an unparseable file in Python) is unreachable through the
modelled operations, which append only at `.jsonl` keys while documents are
only ever written at non-`.jsonl` keys. -/
def appendLine (mem : List (String × FileData)) (k : String) (line : JsonLine) :
    List (String × FileData) :=
  match mem.lookup k with
  | none => setFileData mem k (FileData.jsonl [line])
  | some (FileData.jsonl ls) => setFileData mem k (FileData.jsonl (ls ++ [line]))
  | some (FileData.doc d) => setFileData mem k (FileData.jsonl [JsonLine.entry d, line])
  | some (FileData.stateDoc _) => setFileData mem k (FileData.jsonl [line])

/-- `SpiralStateMachine.record_governance_event`: derive an event id from the
clock, append the event to the governance log file
(`spiral/governance.jsonl`, a key of the memories tree), track it in
`governance_history`, and `_save_state` (rewrite `spiral/state.json`).
Returns the event id, the updated in-memory controller state, and the
updated file tree. -/
def recordGovernanceEvent (sp : SpiralState) (mem : List (String × FileData))
    (decision reason context : String) (restraintScore : ℚ) :
    String × SpiralState × List (String × FileData) :=
  let eid := "gov_" ++ toString sp.clock
  let ev : GovEvent :=
    { eventId := eid, decision := decision, reason := reason, context := context,
      restraintScore := restraintScore, spiralId := sp.spiralId, timestamp := sp.clock }
  let sp2 : SpiralState :=
    { sp with governanceHistory := sp.governanceHistory ++ [eid], clock := sp.clock + 1 }
  let mem2 := appendLine mem GOV_PATH (JsonLine.gov ev)
  (eid, sp2, setFileData mem2 STATE_PATH (FileData.stateDoc sp2))

/-- The governance events recorded in the `spiral/governance.jsonl` file of
a memories tree (the log's parsed view). -/
def govEventsOf (mem : List (String × FileData)) : List GovEvent :=
  match mem.lookup GOV_PATH with
  | some (FileData.jsonl ls) =>
    ls.filterMap (fun l =>
      match l with
      | JsonLine.gov e => some e
      | JsonLine.entry _ => none)
  | _ => []

/-- `TempleMemoryHandler._add_metadata`: fill in `timestamp` and `spiral_id`
when absent. -/
def addMetadata (sp : SpiralState) (c : MemEntry) : MemEntry :=
  { c with
    timestamp := some (c.timestamp.getD sp.clock)
    spiralId := some (c.spiralId.getD sp.spiralId) }

/-- `HybridSyncRouter.fetch_from_cloud`: `None` when the cloud is disabled,
otherwise the `_cloud_fetch` placeholder (which also returns `None`). -/
def fetchFromCloud (s : SyncState) (key : String) : Option FileData :=
  if s.cloudEnabled then
    (cloudFetch key).map (fun ls => FileData.jsonl (ls.map JsonLine.entry))
  else none

/-- `TempleMemoryHandler.create`: governance gate (whose pause event writes
the controller's own files inside the tree), then metadata stamping, a
suffix-dispatched write (append for `.jsonl`, overwrite otherwise) and sync
queueing for the non-`never_sync` tiers.  Returns the reply string and the
new state. -/
def create (st : HandlerState) (key : String) (content : MemEntry) :
    String × HandlerState :=
  if shouldPause st.spiral.restraintLevel "create" key then
    let r := recordGovernanceEvent st.spiral st.memories "pause"
      ("Create operation requires review: " ++ key) key st.spiral.restraintLevel
    ("GOVERNANCE_PAUSE:" ++ r.1 ++ ":User decision required for: " ++ key,
     { st with spiral := r.2.1, memories := r.2.2 })
  else
    let c := addMetadata st.spiral content
    let mem :=
      if strEndsWith key ".jsonl" then appendLine st.memories key (JsonLine.entry c)
      else setFileData st.memories key (FileData.doc c)
    let tier := classifyTier key
    let sync :=
      if tier == "always_sync" || tier == "sync_with_review" || tier == "default" then
        queueForSync st.sync key "create" (some c)
      else st.sync
    ("memory:" ++ key, { st with memories := mem, sync := sync })

/-- `TempleMemoryHandler.read`: local lookup first; on a miss, synced tiers
consult the cloud (whose placeholder backend always yields `None`). -/
def read (st : HandlerState) (key : String) : Option FileData :=
  match st.memories.lookup key with
  | some fd => some fd
  | none =>
    let tier := classifyTier key
    if tier == "always_sync" || tier == "sync_with_review" then
      fetchFromCloud st.sync key
    else none

/-- `TempleMemoryHandler.delete`: always records a `pause` governance event
(restraint score 1.0) and returns the pause token; never removes the data,
but the event recording itself appends to `spiral/governance.jsonl` and
rewrites `spiral/state.json` inside the tree. -/
def delete (st : HandlerState) (key : String) : String × HandlerState :=
  let r := recordGovernanceEvent st.spiral st.memories "pause"
    "Delete requested - requires confirmation" key 1
  ("GOVERNANCE_PAUSE:" ++ r.1 ++ ":DELETE_CONFIRM_REQUIRED:" ++ key,
   { st with spiral := r.2.1, memories := r.2.2 })

/-- `TempleMemoryHandler.confirm_delete`: `False` when the path no longer
exists; otherwise records a `proceed` governance event, then unlinks the
file and returns `True`.  The `event_id` argument is only interpolated into
the event context, never validated. -/
def confirmDelete (st : HandlerState) (key eventId : String) : Bool × HandlerState :=
  match st.memories.lookup key with
  | none => (false, st)
  | some _ =>
    let r := recordGovernanceEvent st.spiral st.memories "proceed"
      "Delete confirmed by user" ("key=" ++ key ++ ", approval=" ++ eventId) 0
    (true,
     { st with
       memories := removeFileData r.2.2 key
       spiral := r.2.1 })


/-! ## Secondary index (`CacheBuilder`, cache.py) -/

/-- One JSON line of a chronicle partition, holding the fields
`rebuild_cache` reads: `session_id`, `type`, `domain`, `content`. -/
structure CEntry where
  sessionId : Option String
  etype : Option String
  domain : Option String
  content : String
deriving DecidableEq, Repr

/-- One `*.jsonl` partition file under `vault/` (the recursive glob
`vault/**/*.jsonl`; the three cache documents are `.json` files and therefore
never matched by that glob). -/
structure CFile where
  path : String
  entries : List CEntry
deriving DecidableEq, Repr

/-- Update an association list at `k` with `upd`, inserting `upd dflt` when
the key is absent (models `defaultdict` access). -/
def updAssoc {β : Type} (upd : β → β) (dflt : β) (k : String) :
    List (String × β) → List (String × β)
  | [] => [(k, upd dflt)]
  | (k2, v) :: rest =>
    if k2 = k then (k2, upd v) :: rest else (k2, v) :: updAssoc upd dflt k rest

/-- Insertion-ordered set extension (models `set.add`). -/
def addToSet (x : String) (l : List String) : List String :=
  if x ∈ l then l else l ++ [x]

/-- `CacheBuilder._extract_keywords`: lowercase, split on whitespace, keep
alphabetic words of length ≥ 4, as a set (deduplicated). -/
def extractKeywords (text : String) : List String :=
  let lowered := text.data.map Char.toLower
  let words := (splitWhen Char.isWhitespace lowered).filter (fun w => !w.isEmpty)
  let kept := words.filter (fun w => w.length ≥ 4 && w.all Char.isAlpha)
  (kept.map String.mk).eraseDups

/-- The three cache documents written by `rebuild_cache`: term -> (file set,
frequency), session -> file set, domain -> file set. -/
structure CacheData where
  invertedIndex : List (String × (List String × Nat))
  sessionMap : List (String × List String)
  domainMap : List (String × List String)
deriving DecidableEq, Repr

/-- Fold one record into the three maps (the body of the entry loop in
`rebuild_cache`). -/
def indexEntry (path : String) (cd : CacheData) (e : CEntry) : CacheData :=
  let cd1 :=
    match e.sessionId with
    | some sid => { cd with sessionMap := updAssoc (addToSet path) [] sid cd.sessionMap }
    | none => cd
  let cd2 :=
    if e.etype == some "insight" then
      match e.domain with
      | some d => { cd1 with domainMap := updAssoc (addToSet path) [] d cd1.domainMap }
      | none => cd1
    else cd1
  (extractKeywords e.content).foldl
    (fun acc kw =>
      { acc with
        invertedIndex :=
          updAssoc (fun fv => (addToSet path fv.1, fv.2 + 1)) ([], 0) kw acc.invertedIndex })
    cd2

/-- The stats dict returned by `rebuild_cache`. -/
structure RebuildStats where
  filesScanned : Nat
  totalEntries : Nat
  uniqueKeywords : Nat
  sessionsIndexed : Nat
  domainsIndexed : Nat
deriving DecidableEq, Repr

/-- `CacheBuilder.rebuild_cache` as a pure function of the store contents:
scan every partition file, fold every record into the three maps, write the
three cache documents, return the stats. -/
def rebuildCache (store : List CFile) : CacheData × RebuildStats :=
  let cd := store.foldl (fun acc f => f.entries.foldl (indexEntry f.path) acc)
    { invertedIndex := [], sessionMap := [], domainMap := [] }
  (cd,
   { filesScanned := store.length
     totalEntries := (store.map (fun f => f.entries.length)).sum
     uniqueKeywords := cd.invertedIndex.length
     sessionsIndexed := cd.sessionMap.length
     domainsIndexed := cd.domainMap.length })

/-- The dict returned by `get_cache_stats`: `no_cache` with no counts, or
`cached` with the three map sizes. -/
structure CacheStats where
  status : String
  uniqueKeywords : Option Nat
  sessionsIndexed : Option Nat
  domainsIndexed : Option Nat
deriving DecidableEq, Repr

/-- The filesystem as the cache builder sees it: the `*.jsonl` partition
files plus the (optional, deletable) cache documents. -/
structure CacheFS where
  store : List CFile
  cache : Option CacheData
deriving DecidableEq, Repr

/-- Run `rebuild_cache` against the filesystem: scans only the `*.jsonl`
partitions and replaces the three cache documents. -/
def rebuildOp (fs : CacheFS) : RebuildStats × CacheFS :=
  let r := rebuildCache fs.store
  (r.2, { fs with cache := some r.1 })

/-- Delete the three cache documents. -/
def deleteIndexFiles (fs : CacheFS) : CacheFS :=
  { fs with cache := none }

/-- `CacheBuilder.get_cache_stats`: `no_cache` when the inverted index file
is missing, otherwise the sizes of the three persisted maps. -/
def getCacheStats (fs : CacheFS) : CacheStats :=
  match fs.cache with
  | none => { status := "no_cache", uniqueKeywords := none, sessionsIndexed := none,
              domainsIndexed := none }
  | some cd =>
    { status := "cached"
      uniqueKeywords := some cd.invertedIndex.length
      sessionsIndexed := some cd.sessionMap.length
      domainsIndexed := some cd.domainMap.length }

/-! ## Query engine (`VaultQuery`, query.py) -/

/-- One chronicle JSON record, holding the fields the queried operations
read: `type`, `intensity` (absent models the `.get("intensity", 0)`
default), `session_id`, `builds_on`, `lineage_chain`. -/
structure QRecord where
  rtype : Option String
  intensity : Option ℚ
  sessionId : Option String
  buildsOn : List String
  lineageChain : List String
deriving DecidableEq, Repr

/-- One file matched by the glob `insights/{domain or *}/*.jsonl`: its domain
directory and its records. -/
structure InsightFile where
  domain : String
  name : String
  entries : List QRecord
deriving DecidableEq, Repr

/-- `VaultQuery.recall_insights`: glob the domain directories, flatten the
records, keep `type == "insight"` records with `intensity ≥ min_intensity`. -/
def recallInsights (files : List InsightFile) (domain : Option String)
    (minIntensity : ℚ) : List QRecord :=
  let globbed := files.filter (fun f =>
    match domain with
    | none => true
    | some d => f.domain == d)
  ((globbed.map (fun f => f.entries)).flatten).filter
    (fun e => e.rtype == some "insight" && decide (minIntensity ≤ e.intensity.getD 0))

/-- One file under `lineage/` (the glob `lineage/*{session_id}*.jsonl`
matches filenames containing the session id). -/
structure LineageFile where
  name : String
  entries : List QRecord
deriving DecidableEq, Repr

/-- The dict returned by `get_spiral_context`. -/
structure SpiralContext where
  sessionId : String
  buildsOn : List String
  lineageChain : List String
  relatedSessions : List String
deriving DecidableEq, Repr

/-- The per-record step of `get_spiral_context`: on a matching lineage record
`builds_on` is extended, `lineage_chain` is overwritten. -/
def lineageStep (sid : String) (acc : List String × List String) (e : QRecord) :
    List String × List String :=
  if e.rtype == some "lineage" && e.sessionId == some sid then
    (acc.1 ++ e.buildsOn, e.lineageChain)
  else acc

/-- `item.split("_")[1] if "_" in item else item` from `get_spiral_context`. -/
def relatedOf (item : String) : String :=
  match splitWhen (fun c => c == '_') item.data with
  | _ :: second :: _ => String.mk second
  | _ => item

/-- The record loop of `get_spiral_context`: fold all records of the
`sid`-matching lineage files (glob order) with `lineageStep`, starting from
`builds_on = []`, `lineage_chain = []`. -/
def spiralFold (files : List LineageFile) (sid : String) : List String × List String :=
  ((files.filter (fun f => strContainsSub f.name sid)).map
    (fun f => f.entries)).flatten.foldl (lineageStep sid) ([], [])

/-- `VaultQuery.get_spiral_context`: filter the lineage files whose name
contains the session id, fold their records with `lineageStep`, and derive
`related_sessions` from the final `lineage_chain`.  Python materialises
`related_sessions` through `list(set(...))`, whose order is unspecified;
`eraseDups` is one deterministic choice of that set. -/
def getSpiralContext (files : List LineageFile) (sid : String) : SpiralContext :=
  { sessionId := sid
    buildsOn := (spiralFold files sid).1
    lineageChain := (spiralFold files sid).2
    relatedSessions := ((spiralFold files sid).2.map relatedOf).eraseDups }

/-- The records of the `sid`-matching lineage files that `lineageStep` acts
on (type `lineage`, matching `session_id`), in scan order. -/
def matchingLineageEntries (files : List LineageFile) (sid : String) : List QRecord :=
  (((files.filter (fun f => strContainsSub f.name sid)).map (fun f => f.entries)).flatten).filter
    (fun e => e.rtype == some "lineage" && e.sessionId == some sid)

/-! ## Snapshot store (`VaultEvents`, mcpb events.py) -/

/-- The state blob passed to `create_snapshot` in the examined scenario
(`{tasks: [...]}`). -/
structure SnapState where
  tasks : List String
deriving DecidableEq, Repr

/-- The snapshot record `create_snapshot` builds before serialising. -/
structure SnapRecord where
  snapshotId : String
  sessionId : String
  timestamp : Nat
  state : SnapState
deriving DecidableEq, Repr

/-- One file in a `vault/snapshots/{session_id}/` directory.  `content = none`
models a file whose bytes do not parse as JSON (in particular an empty file,
on which `json.load` raises `JSONDecodeError`). -/
structure SnapFile where
  name : String
  content : Option SnapRecord
deriving DecidableEq, Repr

/-- The snapshots directory tree: per-session file lists, the `latest`
symlink (target session and filename), and the logical clock standing in for
`datetime.now()`. -/
structure SnapshotStore where
  sessions : List (String × List SnapFile)
  latest : Option (String × String)
  clock : Nat
deriving DecidableEq, Repr

/-- Add a file to a session's snapshot directory, creating the directory on
first use. -/
def addSnapFile : List (String × List SnapFile) → String → SnapFile →
    List (String × List SnapFile)
  | [], sid, f => [(sid, [f])]
  | (s2, fs) :: rest, sid, f =>
    if s2 = sid then (s2, fs ++ [f]) :: rest else (s2, fs) :: addSnapFile rest sid f

/-- `VaultEvents.create_snapshot` as written in
`src/mcpb/server/temple_vault/core/events.py`: `open(snap_file, "w")` creates
the (empty) file, then the body runs `json.dumps(snapshot, f, indent=2)`.
`json.dumps` accepts a single positional argument (the file-writing variant
is `json.dump`), so passing the file object raises `TypeError`, the file is
left empty, and neither the `latest` symlink update nor the `return` is
reached.  The result models the raised exception together with the
filesystem state the aborted call leaves behind. -/
def createSnapshot (s : SnapshotStore) (sessionId : String) (_state : SnapState) :
    Except String String × SnapshotStore :=
  let snapId := "snap_" ++ toString s.clock
  let s1 := addSnapFile s.sessions sessionId { name := snapId ++ ".json", content := none }
  (Except.error "TypeError: dumps() takes 1 positional argument but 2 were given",
   { s with sessions := s1, clock := s.clock + 1 })

/-- Lexicographic character-list comparison (Python string `<=`). -/
def charsLe : List Char → List Char → Bool
  | [], _ => true
  | _ :: _, [] => false
  | a :: as, b :: bs => if a = b then charsLe as bs else decide (a < b)

/-- Insert into a descending-sorted file list (for `sorted(..., reverse=True)`). -/
def insertDesc (f : SnapFile) : List SnapFile → List SnapFile
  | [] => [f]
  | g :: rest =>
    if charsLe g.name.data f.name.data then f :: g :: rest else g :: insertDesc f rest

/-- Sort files by name, descending (models `sorted(paths, reverse=True)`). -/
def sortDesc : List SnapFile → List SnapFile
  | [] => []
  | f :: rest => insertDesc f (sortDesc rest)

/-- `VaultEvents.get_latest_snapshot`: for a session, glob
`snap_*.json` in its directory, pick the name-wise newest, `json.load` it
(`JSONDecodeError` on an unparseable file); with no session, follow the
`latest` symlink. -/
def getLatestSnapshot (s : SnapshotStore) (sessionId : Option String) :
    Except String (Option SnapRecord) :=
  match sessionId with
  | some sid =>
    match s.sessions.lookup sid with
    | none => Except.ok none
    | some files =>
      let snaps := files.filter
        (fun f => strStartsWith f.name "snap_" && strEndsWith f.name ".json")
      match sortDesc snaps with
      | [] => Except.ok none
      | f :: _ =>
        match f.content with
        | some r => Except.ok (some r)
        | none => Except.error "JSONDecodeError"
  | none =>
    match s.latest with
    | none => Except.ok none
    | some (sid2, fname) =>
      match s.sessions.lookup sid2 with
      | none => Except.ok none
      | some files =>
        match files.find? (fun f => f.name == fname) with
        | none => Except.ok none
        | some f =>
          match f.content with
          | some r => Except.ok (some r)
          | none => Except.error "JSONDecodeError"

/-! ## Helper lemmas -/

/-- A character list is a Boolean prefix of itself followed by anything. -/
lemma chars_isPrefixOf_append (p t : List Char) : p.isPrefixOf (p ++ t) = true := by
  rw [List.isPrefixOf_iff_prefix]
  exact List.prefix_append p t

/-- Appending on the right preserves the Boolean prefix test. -/
lemma chars_isPrefixOf_append_of (p l t : List Char) (h : p.isPrefixOf l = true) :
    p.isPrefixOf (l ++ t) = true := by
  rw [List.isPrefixOf_iff_prefix] at h ⊢
  exact h.trans (List.prefix_append l t)

/-- A string starts with itself followed by anything. -/
lemma strStartsWith_append (p t : String) : strStartsWith (p ++ t) p = true := by
  unfold strStartsWith
  rw [String.data_append]
  exact chars_isPrefixOf_append p.data t.data

/-- Appending on the right preserves `strStartsWith`. -/
lemma strStartsWith_append_of (s t p : String) (h : strStartsWith s p = true) :
    strStartsWith (s ++ t) p = true := by
  unfold strStartsWith at h ⊢
  rw [String.data_append]
  exact chars_isPrefixOf_append_of p.data s.data t.data h

/-- After `removeFileData`, the removed key is gone. -/
lemma lookup_removeFileData (mem : List (String × FileData)) (k : String) :
    (removeFileData mem k).lookup k = none := by
  induction mem with
  | nil => rfl
  | cons kv rest ih =>
    obtain ⟨k1, v1⟩ := kv
    by_cases h : k1 = k
    · rw [removeFileData, if_pos h]
      exact ih
    · rw [removeFileData, if_neg h, List.lookup_cons]
      have hk : (k == k1) = false := by
        simp only [beq_eq_false_iff_ne]
        exact fun hh => h hh.symm
      rw [hk]
      exact ih

/-- `setFileData` stores the written content at the written key. -/
lemma lookup_setFileData_self (mem : List (String × FileData)) (k : String)
    (fd : FileData) : (setFileData mem k fd).lookup k = some fd := by
  induction mem with
  | nil => simp [setFileData, List.lookup_cons]
  | cons kv rest ih =>
    obtain ⟨k1, v1⟩ := kv
    by_cases h : k1 = k
    · rw [setFileData, if_pos h, List.lookup_cons]
      simp
    · rw [setFileData, if_neg h, List.lookup_cons]
      have hk : (k == k1) = false := by
        simp only [beq_eq_false_iff_ne]
        exact fun hh => h hh.symm
      rw [hk]
      exact ih

/-- `setFileData` leaves every other key untouched. -/
lemma lookup_setFileData_ne (mem : List (String × FileData)) (k : String)
    (fd : FileData) (k2 : String) (h : k2 ≠ k) :
    (setFileData mem k fd).lookup k2 = mem.lookup k2 := by
  induction mem with
  | nil =>
    rw [setFileData, List.lookup_cons]
    have hk : (k2 == k) = false := by simpa using h
    rw [hk]
  | cons kv rest ih =>
    obtain ⟨k1, v1⟩ := kv
    by_cases h1 : k1 = k
    · rw [setFileData, if_pos h1, List.lookup_cons, List.lookup_cons]
      have hk : (k2 == k) = false := by simpa using h
      have hk1 : (k2 == k1) = false := by
        simp only [beq_eq_false_iff_ne]
        intro hh
        exact h (hh.trans h1)
      rw [hk, hk1]
    · rw [setFileData, if_neg h1, List.lookup_cons, List.lookup_cons]
      cases hk1 : (k2 == k1) with
      | true => rfl
      | false => exact ih

/-- `appendLine` leaves every other key untouched. -/
lemma lookup_appendLine_ne (mem : List (String × FileData)) (k : String)
    (line : JsonLine) (k2 : String) (h : k2 ≠ k) :
    (appendLine mem k line).lookup k2 = mem.lookup k2 := by
  unfold appendLine
  cases hl : mem.lookup k with
  | none => exact lookup_setFileData_ne mem k _ k2 h
  | some fd => cases fd <;> exact lookup_setFileData_ne mem k _ k2 h

/-- Appending a governance line to the log file extends the parsed log by
exactly that event, whatever shape the file had before. -/
lemma govEventsOf_append_gov (mem : List (String × FileData)) (ev : GovEvent) :
    govEventsOf (appendLine mem GOV_PATH (JsonLine.gov ev))
      = govEventsOf mem ++ [ev] := by
  unfold govEventsOf appendLine
  cases hl : mem.lookup GOV_PATH with
  | none => rw [lookup_setFileData_self]; simp
  | some fd =>
    cases fd with
    | jsonl ls =>
      rw [lookup_setFileData_self]
      simp [List.filterMap_append]
    | doc d => rw [lookup_setFileData_self]; simp
    | stateDoc sp => rw [lookup_setFileData_self]; simp

/-- Rewriting the controller state document does not touch the parsed
governance log. -/
lemma govEventsOf_setState (mem : List (String × FileData)) (sp : SpiralState) :
    govEventsOf (setFileData mem STATE_PATH (FileData.stateDoc sp))
      = govEventsOf mem := by
  unfold govEventsOf
  rw [lookup_setFileData_ne mem STATE_PATH _ GOV_PATH (by decide)]

/-- `record_governance_event` appends exactly one event to the parsed
governance log. -/
lemma govEventsOf_record (sp : SpiralState) (mem : List (String × FileData))
    (d rn c : String) (s : ℚ) :
    govEventsOf (recordGovernanceEvent sp mem d rn c s).2.2
      = govEventsOf mem ++
        [{ eventId := "gov_" ++ toString sp.clock, decision := d, reason := rn,
           context := c, restraintScore := s, spiralId := sp.spiralId,
           timestamp := sp.clock }] := by
  unfold recordGovernanceEvent
  rw [govEventsOf_setState, govEventsOf_append_gov]

/-- `record_governance_event` writes only the controller's two files: every
key other than `spiral/governance.jsonl` and `spiral/state.json` is
untouched. -/
lemma lookup_record_ne (sp : SpiralState) (mem : List (String × FileData))
    (d rn c : String) (s : ℚ) (k2 : String)
    (h2 : k2 ≠ GOV_PATH) (h3 : k2 ≠ STATE_PATH) :
    (recordGovernanceEvent sp mem d rn c s).2.2.lookup k2 = mem.lookup k2 := by
  unfold recordGovernanceEvent
  rw [lookup_setFileData_ne _ STATE_PATH _ k2 h3,
    lookup_appendLine_ne mem GOV_PATH _ k2 h2]

/-! ## Claim theorems -/

/-- C3: index rebuild is idempotent and deterministic.  For any fixed store
contents and any initial cache state: rebuild, read the stats, delete the
three index files, rebuild again — the second stats (and the cache contents
themselves) equal the first.  The scan glob `vault/**/*.jsonl` never matches
the three `.json` cache documents, so the rebuild reads only the store. -/
theorem rebuild_idempotent_deterministic (store : List CFile) (c0 : Option CacheData) :
    getCacheStats (rebuildOp (deleteIndexFiles (rebuildOp ⟨store, c0⟩).2)).2
      = getCacheStats (rebuildOp ⟨store, c0⟩).2
    ∧ (rebuildOp (deleteIndexFiles (rebuildOp ⟨store, c0⟩).2)).2.cache
      = (rebuildOp ⟨store, c0⟩).2.cache
    ∧ (rebuildOp (deleteIndexFiles (rebuildOp ⟨store, c0⟩).2)).1
      = (rebuildOp ⟨store, c0⟩).1 :=
  ⟨rfl, rfl, rfl⟩

/-- C10: `confirm_delete` on a key that does not exist on disk returns
`False` and has no side effects at all: the whole handler state — in
particular the memories tree and with it the governance log file — is
unchanged (the `proceed` event is only recorded when a removal actually
occurs). -/
theorem confirmDelete_missing_key_no_effects (st : HandlerState) (k eid : String)
    (h : st.memories.lookup k = none) :
    (confirmDelete st k eid).1 = false
    ∧ (confirmDelete st k eid).2 = st
    ∧ govEventsOf (confirmDelete st k eid).2.memories = govEventsOf st.memories := by
  unfold confirmDelete
  rw [h]
  exact ⟨rfl, rfl, rfl⟩

/-- Witness for C10 at a concrete state: the key is absent, `confirm_delete`
returns `false` and leaves the state untouched. -/
theorem confirmDelete_missing_key_no_effects_witness :
    ((⟨[("a.json", FileData.doc ⟨"x", none, none⟩)], ⟨"sp0", mkRat 1 2, [], [], 0⟩,
       ⟨[], 0, false, 0⟩⟩ : HandlerState).memories.lookup "b.json" = none)
    ∧ (confirmDelete ⟨[("a.json", FileData.doc ⟨"x", none, none⟩)],
        ⟨"sp0", mkRat 1 2, [], [], 0⟩, ⟨[], 0, false, 0⟩⟩ "b.json" "gov_0").1 = false :=
  ⟨by decide,
   (confirmDelete_missing_key_no_effects
     ⟨[("a.json", FileData.doc ⟨"x", none, none⟩)], ⟨"sp0", mkRat 1 2, [], [], 0⟩,
      ⟨[], 0, false, 0⟩⟩ "b.json" "gov_0" (by decide)).1⟩

/-- Concrete handler state for the C2 counterexample and witness: an empty
memories tree with a fresh controller. -/
def c2State : HandlerState :=
  { memories := [], spiral := ⟨"sp2", mkRat 1 2, [], [], 0⟩, sync := ⟨[], 0, false, 0⟩ }

/-- C2 counterexample: at the key of the governance log itself, `delete`
does modify the stored data — the pause event it records is appended to
`memories/spiral/governance.jsonl` (the spiral directory lives under
`memories_dir`, memory_handler.py:50), so `read` of that key returns `None`
before the call and the freshly written event afterwards, refuting "a
read(k) immediately after delete(k) returns the same content as before" for
every key. -/
theorem delete_modifies_governance_key_cex :
    read c2State GOV_PATH = none
    ∧ read (delete c2State GOV_PATH).2 GOV_PATH
        = some (FileData.jsonl [JsonLine.gov
            { eventId := "gov_0", decision := "pause",
              reason := "Delete requested - requires confirmation",
              context := GOV_PATH, restraintScore := 1, spiralId := "sp2",
              timestamp := 0 }]) :=
  ⟨rfl, rfl⟩

/-- C2 (amended): for every key `k`, `delete(k)` records exactly one
(pause) governance event and returns a pause token that begins with the
reserved `GOVERNANCE_PAUSE` marker and embeds the event's id, and it
removes nothing; its only writes are the controller's own files — the
governance log (`spiral/governance.jsonl`, which gains exactly the pause
event) and the controller state document (`spiral/state.json`) — so a
`read` immediately afterwards is unchanged at every key other than those
two (in particular at `k` itself whenever `k` is neither of them). -/
theorem delete_pause_token_frame (st : HandlerState) (k : String) :
    strStartsWith (delete st k).1 "GOVERNANCE_PAUSE:" = true
    ∧ (delete st k).1 = "GOVERNANCE_PAUSE:" ++ ("gov_" ++ toString st.spiral.clock)
        ++ ":DELETE_CONFIRM_REQUIRED:" ++ k
    ∧ govEventsOf (delete st k).2.memories = govEventsOf st.memories ++
        [{ eventId := "gov_" ++ toString st.spiral.clock, decision := "pause",
           reason := "Delete requested - requires confirmation", context := k,
           restraintScore := 1, spiralId := st.spiral.spiralId,
           timestamp := st.spiral.clock }]
    ∧ (∀ k2, k2 ≠ GOV_PATH → k2 ≠ STATE_PATH →
        read (delete st k).2 k2 = read st k2)
    ∧ (k ≠ GOV_PATH → k ≠ STATE_PATH → read (delete st k).2 k = read st k) := by
  have hread : ∀ k2, k2 ≠ GOV_PATH → k2 ≠ STATE_PATH →
      read (delete st k).2 k2 = read st k2 := by
    intro k2 h2 h3
    unfold read
    rw [show (delete st k).2.memories.lookup k2 = st.memories.lookup k2 from
      lookup_record_ne st.spiral st.memories _ _ _ _ k2 h2 h3]
    rfl
  refine ⟨?_, rfl, ?_, hread, fun h2 h3 => hread k h2 h3⟩
  · show strStartsWith ("GOVERNANCE_PAUSE:" ++ ("gov_" ++ toString st.spiral.clock)
      ++ ":DELETE_CONFIRM_REQUIRED:" ++ k) "GOVERNANCE_PAUSE:" = true
    exact strStartsWith_append_of _ _ _
      (strStartsWith_append_of _ _ _ (strStartsWith_append _ _))
  · exact govEventsOf_record st.spiral st.memories "pause"
      "Delete requested - requires confirmation" k 1

/-- Witness for the amended C2 at a concrete state and an ordinary key: the
token is a pause token and the read of the key is unchanged. -/
theorem delete_pause_token_frame_witness :
    strStartsWith (delete c2State "notes/a.json").1 "GOVERNANCE_PAUSE:" = true
    ∧ read (delete c2State "notes/a.json").2 "notes/a.json"
        = read c2State "notes/a.json" :=
  ⟨(delete_pause_token_frame c2State "notes/a.json").1,
   (delete_pause_token_frame c2State "notes/a.json").2.2.2.2 (by decide) (by decide)⟩

/-- Concrete handler state for the C1 counterexample and witness: one stored
document and no governance log file (no event ever recorded). -/
def c1State : HandlerState :=
  { memories := [("technical/creds.json", FileData.doc ⟨"secret", none, none⟩)]
    spiral := ⟨"sp0", mkRat 1 2, [], [], 0⟩
    sync := ⟨[], 0, false, 0⟩ }

/-- C1 counterexample: the governance log records no pause event at all (in
particular none with id `gov_9999`), yet `confirm_delete` with that bogus
event id still physically removes the key and reports `true`.  The code
never validates `event_id` against prior pause events. -/
theorem confirmDelete_ignores_event_id_cex :
    (¬ ∃ e ∈ govEventsOf c1State.memories, e.decision = "pause" ∧ e.eventId = "gov_9999")
    ∧ (confirmDelete c1State "technical/creds.json" "gov_9999").1 = true
    ∧ (confirmDelete c1State "technical/creds.json" "gov_9999").2.memories.lookup
        "technical/creds.json" = none := by
  refine ⟨by decide, rfl, by decide⟩

/-- C1 (amended): `confirm_delete(k, event_id)` removes `k` whenever `k`
still exists on disk — the `event_id` argument is never validated and has no
influence on the outcome — and returns `false`, with no state change, when
`k` no longer exists. -/
theorem confirmDelete_removes_iff_exists (st : HandlerState) (k eid eid2 : String) :
    ((confirmDelete st k eid).1 = (st.memories.lookup k).isSome)
    ∧ ((confirmDelete st k eid).1 = (confirmDelete st k eid2).1)
    ∧ ((st.memories.lookup k).isSome = true →
        (confirmDelete st k eid).2.memories.lookup k = none)
    ∧ ((st.memories.lookup k).isSome = false → (confirmDelete st k eid).2 = st) := by
  unfold confirmDelete
  cases h : st.memories.lookup k with
  | none => simp [h]
  | some fd => simp [h, lookup_removeFileData]

/-- Witness for the amended C1 at a concrete state: the key exists, removal
happens and is reported, whatever event id is passed. -/
theorem confirmDelete_removes_iff_exists_witness :
    (confirmDelete c1State "technical/creds.json" "unvalidated").1 = true
    ∧ (confirmDelete c1State "technical/creds.json" "unvalidated").2.memories.lookup
        "technical/creds.json" = none :=
  ⟨(confirmDelete_removes_iff_exists c1State "technical/creds.json" "unvalidated"
      "other").1.trans (by decide),
   (confirmDelete_removes_iff_exists c1State "technical/creds.json" "unvalidated"
      "other").2.2.1 (by decide)⟩

/-- Concrete handler state for the C6 counterexample and witness: restraint
level 0.9 (> 0.8), so every `create` pauses; empty memories tree. -/
def c6State : HandlerState :=
  { memories := [], spiral := ⟨"sp6", mkRat 9 10, [], [], 0⟩,
    sync := ⟨[], 0, false, 0⟩ }

/-- C6 counterexample: with restraint above 0.8, `should_pause("create",
"spiral/governance.jsonl")` is true, and the paused `create` records its
pause event by appending to `memories/spiral/governance.jsonl` — the file
for that very key is created — refuting "no file for key is created or
modified" for every paused key. -/
theorem create_paused_writes_governance_file_cex :
    shouldPause c6State.spiral.restraintLevel "create" GOV_PATH = true
    ∧ c6State.memories.lookup GOV_PATH = none
    ∧ (create c6State GOV_PATH ⟨"x", none, none⟩).2.memories.lookup GOV_PATH
        = some (FileData.jsonl [JsonLine.gov
            { eventId := "gov_0", decision := "pause",
              reason := "Create operation requires review: " ++ GOV_PATH,
              context := GOV_PATH, restraintScore := mkRat 9 10,
              spiralId := "sp6", timestamp := 0 }]) :=
  ⟨by decide, rfl, rfl⟩

/-- C6 (amended): for every key `k` for which `should_pause("create", k)`
is true, `create(k, content)` returns a pause token (an opaque string
embedding the governance event ID), queues nothing for sync, and writes
only the controller's own files: the governance log
(`spiral/governance.jsonl`, which gains exactly the pause event) and the
controller state document (`spiral/state.json`).  Every other key — in
particular `k` itself whenever `k` is neither of those two — is neither
created nor modified. -/
theorem create_paused_writes_only_controller_files (st : HandlerState) (k : String)
    (c : MemEntry)
    (h : shouldPause st.spiral.restraintLevel "create" k = true) :
    (create st k c).2.sync = st.sync
    ∧ strStartsWith (create st k c).1 "GOVERNANCE_PAUSE:" = true
    ∧ (create st k c).1 = "GOVERNANCE_PAUSE:" ++ ("gov_" ++ toString st.spiral.clock)
        ++ ":User decision required for: " ++ k
    ∧ govEventsOf (create st k c).2.memories = govEventsOf st.memories ++
        [{ eventId := "gov_" ++ toString st.spiral.clock, decision := "pause",
           reason := "Create operation requires review: " ++ k, context := k,
           restraintScore := st.spiral.restraintLevel,
           spiralId := st.spiral.spiralId, timestamp := st.spiral.clock }]
    ∧ (∀ k2, k2 ≠ GOV_PATH → k2 ≠ STATE_PATH →
        (create st k c).2.memories.lookup k2 = st.memories.lookup k2)
    ∧ (k ≠ GOV_PATH → k ≠ STATE_PATH →
        (create st k c).2.memories.lookup k = st.memories.lookup k) := by
  unfold create
  rw [if_pos h]
  have hmem : ∀ k2, k2 ≠ GOV_PATH → k2 ≠ STATE_PATH →
      (recordGovernanceEvent st.spiral st.memories "pause"
        ("Create operation requires review: " ++ k) k
        st.spiral.restraintLevel).2.2.lookup k2 = st.memories.lookup k2 :=
    fun k2 h2 h3 => lookup_record_ne st.spiral st.memories _ _ _ _ k2 h2 h3
  refine ⟨rfl, ?_, rfl, ?_, hmem, fun h2 h3 => hmem k h2 h3⟩
  · exact strStartsWith_append_of _ _ _
      (strStartsWith_append_of _ _ _ (strStartsWith_append _ _))
  · exact govEventsOf_record st.spiral st.memories "pause"
      ("Create operation requires review: " ++ k) k st.spiral.restraintLevel

/-- Witness for the amended C6 at a concrete state and an ordinary key: high
restraint pauses the create; the entry for the key is untouched and nothing
is queued. -/
theorem create_paused_writes_only_controller_files_witness :
    shouldPause c6State.spiral.restraintLevel "create" "notes/x.json" = true
    ∧ (create c6State "notes/x.json" ⟨"body", none, none⟩).2.memories.lookup
        "notes/x.json" = c6State.memories.lookup "notes/x.json"
    ∧ (create c6State "notes/x.json" ⟨"body", none, none⟩).2.sync = c6State.sync :=
  ⟨by decide,
   (create_paused_writes_only_controller_files c6State "notes/x.json"
      ⟨"body", none, none⟩ (by decide)).2.2.2.2.2 (by decide) (by decide),
   (create_paused_writes_only_controller_files c6State "notes/x.json"
      ⟨"body", none, none⟩ (by decide)).1⟩

/-- C7: `classify_tier` is total over the four tiers, and a
`queue_for_sync` call on a `never_sync` key leaves the pending queue exactly
as it was (no entry for the key is added). -/
theorem classifyTier_total_never_sync_not_queued (k op : String)
    (c : Option MemEntry) (s : SyncState) :
    (classifyTier k = "never_sync" ∨ classifyTier k = "always_sync"
      ∨ classifyTier k = "sync_with_review" ∨ classifyTier k = "default")
    ∧ (classifyTier k = "never_sync" →
        (queueForSync s k op c).pendingQueue = s.pendingQueue) := by
  constructor
  · unfold classifyTier
    split
    · exact Or.inl rfl
    · split
      · exact Or.inr (Or.inl rfl)
      · split
        · exact Or.inr (Or.inr (Or.inl rfl))
        · exact Or.inr (Or.inr (Or.inr rfl))
  · intro h
    simp [queueForSync, h]

/-- Witness for C7 at a concrete key: `technical/api_keys/...` classifies as
`never_sync` and queueing it is a no-op. -/
theorem classifyTier_total_never_sync_not_queued_witness :
    classifyTier "technical/api_keys/k.json" = "never_sync"
    ∧ (queueForSync ⟨[], 0, false, 0⟩ "technical/api_keys/k.json" "create"
        none).pendingQueue = [] :=
  ⟨by decide,
   (classifyTier_total_never_sync_not_queued "technical/api_keys/k.json" "create"
      none ⟨[], 0, false, 0⟩).2 (by decide)⟩

/-- Boolean normal form of `should_pause` (the if-chain as one disjunction). -/
lemma shouldPause_bool (r : ℚ) (a k : String) :
    shouldPause r a k =
      (a == "delete"
        || (sensitivePatterns.any (fun p => strStartsWith k p)
             && (a == "create" || a == "update"))
        || (decide (mkRat 4 5 < r) && a == "create")) := by
  unfold shouldPause
  cases h1 : (a == "delete") <;>
    cases h2 : sensitivePatterns.any (fun p => strStartsWith k p) <;>
      cases h3 : (a == "create") <;>
        cases h4 : (a == "update") <;>
          cases h5 : decide (mkRat 4 5 < r) <;>
            simp [h1, h2, h3, h4, h5]

/-- C5: `should_pause(action, key)` is true exactly when the action is
`delete`; or the action is a write (`create`/`update`) and the key starts
with one of the sensitive prefixes; or the action is `create` and the
restraint level exceeds 0.8.  Every other case proceeds. -/
theorem shouldPause_characterization (r : ℚ) (a k : String) :
    shouldPause r a k = true ↔
      (a = "delete"
        ∨ ((a = "create" ∨ a = "update")
            ∧ ∃ p ∈ sensitivePatterns, strStartsWith k p = true)
        ∨ (a = "create" ∧ mkRat 4 5 < r)) := by
  rw [shouldPause_bool]
  simp only [Bool.or_eq_true, Bool.and_eq_true, beq_iff_eq, List.any_eq_true,
    decide_eq_true_eq]
  constructor
  · rintro ((h | ⟨hp, hcu⟩) | ⟨hlt, hc⟩)
    · exact Or.inl h
    · exact Or.inr (Or.inl ⟨hcu, hp⟩)
    · exact Or.inr (Or.inr ⟨hc, hlt⟩)
  · rintro (h | ⟨hcu, hp⟩ | ⟨hc, hlt⟩)
    · exact Or.inl (Or.inl h)
    · exact Or.inl (Or.inr ⟨hp, hcu⟩)
    · exact Or.inr ⟨hlt, hc⟩

/-- C8: the intensity filter is monotone — raising the threshold only
shrinks the result set: every record returned at threshold `t2` is returned
at any lower threshold `t1`. -/
theorem recallInsights_monotone (files : List InsightFile) (dom : Option String)
    (t1 t2 : ℚ) (h : t1 < t2) :
    ∀ r ∈ recallInsights files dom t2, r ∈ recallInsights files dom t1 := by
  intro r hr
  unfold recallInsights at hr ⊢
  rw [List.mem_filter] at hr ⊢
  refine ⟨hr.1, ?_⟩
  have h2 := hr.2
  simp only [Bool.and_eq_true, decide_eq_true_eq] at h2 ⊢
  exact ⟨h2.1, le_trans (le_of_lt h) h2.2⟩

/-- Concrete store for the C8 witness: one insight of intensity 0.9. -/
def c8Files : List InsightFile :=
  [{ domain := "governance", name := "sess_1.jsonl",
     entries := [⟨some "insight", some (mkRat 9 10), some "sess_1", [], []⟩] }]

/-- Witness for C8 at a concrete store and thresholds 0.5 < 0.75: the record
returned at the higher threshold is returned at the lower one. -/
theorem recallInsights_monotone_witness :
    mkRat 1 2 < mkRat 3 4
    ∧ (⟨some "insight", some (mkRat 9 10), some "sess_1", [], []⟩ : QRecord)
        ∈ recallInsights c8Files (some "governance") (mkRat 1 2) :=
  ⟨by decide,
   recallInsights_monotone c8Files (some "governance") (mkRat 1 2) (mkRat 3 4)
     (by decide) ⟨some "insight", some (mkRat 9 10), some "sess_1", [], []⟩ (by decide)⟩

/-- Closed form of the `get_spiral_context` record loop: `builds_on`
accumulates across matching records, `lineage_chain` keeps only the last
matching record's value. -/
lemma foldl_lineageStep (sid : String) (l : List QRecord) (b0 lc0 : List String) :
    l.foldl (lineageStep sid) (b0, lc0)
      = (b0 ++ ((l.filter
            (fun e => e.rtype == some "lineage" && e.sessionId == some sid)).map
            (fun e => e.buildsOn)).flatten,
         ((l.filter
            (fun e => e.rtype == some "lineage" && e.sessionId == some sid)).map
            (fun e => e.lineageChain)).getLastD lc0) := by
  induction l generalizing b0 lc0 with
  | nil => simp
  | cons e rest ih =>
    rw [List.foldl_cons, List.filter_cons]
    by_cases h : (e.rtype == some "lineage" && e.sessionId == some sid) = true
    · rw [if_pos h]
      have hstep : lineageStep sid (b0, lc0) e = (b0 ++ e.buildsOn, e.lineageChain) := by
        unfold lineageStep
        rw [if_pos h]
      rw [hstep, ih, List.map_cons, List.map_cons, List.flatten_cons,
        List.getLastD_cons, List.append_assoc]
    · rw [if_neg h]
      have hstep : lineageStep sid (b0, lc0) e = (b0, lc0) := by
        unfold lineageStep
        rw [if_neg h]
      rw [hstep, ih]

/-- Concrete lineage records for the C9 counterexample: two matching files,
each with one matching lineage record carrying a different `lineage_chain`. -/
def c9e1 : QRecord := ⟨some "lineage", none, some "sess_9", ["ins_1"], ["spiral_a"]⟩

/-- Second matching lineage record for the C9 counterexample. -/
def c9e2 : QRecord := ⟨some "lineage", none, some "sess_9", ["ins_2"], ["spiral_b"]⟩

/-- The two lineage files for the C9 counterexample. -/
def c9Files : List LineageFile :=
  [⟨"sess_9_a.jsonl", [c9e1]⟩, ⟨"sess_9_b.jsonl", [c9e2]⟩]

/-- C9 counterexample: `"spiral_a"` lies in the `lineage_chain` of a matching
lineage record, yet is absent from the returned `lineage_chain` — the code
overwrites `lineage_chain` per matching record instead of unioning, so the
result keeps only the last match's chain.  (`builds_on` *is* accumulated
across matches.) -/
theorem getSpiralContext_not_union_cex :
    c9e1 ∈ matchingLineageEntries c9Files "sess_9"
    ∧ "spiral_a" ∈ c9e1.lineageChain
    ∧ "spiral_a" ∉ (getSpiralContext c9Files "sess_9").lineageChain
    ∧ (getSpiralContext c9Files "sess_9").lineageChain = ["spiral_b"]
    ∧ (getSpiralContext c9Files "sess_9").buildsOn = ["ins_1", "ins_2"] := by
  refine ⟨by decide, by decide, by decide, by decide, by decide⟩

/-- C9 (amended): `get_spiral_context(session_id)` reads only the lineage
partitions whose filename contains the session id and performs no recursive
traversal of `builds_on` references: its `builds_on` is the concatenation of
the `builds_on` fields of the matching lineage records, and its
`lineage_chain` is the `lineage_chain` field of the *last* matching record
(`[]` when there is none), not the union across matches. -/
theorem getSpiralContext_single_hop (files : List LineageFile) (sid : String) :
    (getSpiralContext files sid).buildsOn
      = ((matchingLineageEntries files sid).map (fun e => e.buildsOn)).flatten
    ∧ (getSpiralContext files sid).lineageChain
      = ((matchingLineageEntries files sid).map (fun e => e.lineageChain)).getLastD []
    ∧ (getSpiralContext files sid).sessionId = sid := by
  unfold getSpiralContext matchingLineageEntries spiralFold
  rw [foldl_lineageStep]
  exact ⟨by simp, rfl, rfl⟩

/-- Empty snapshots directory for the C4 evaluation. -/
def c4Store : SnapshotStore := { sessions := [], latest := none, clock := 0 }

/-- C4: evaluation of the snapshot round-trip scenario on the code as
written.  `create_snapshot("s1", {tasks:["a"]})` does not succeed: the body
executes `json.dumps(snapshot, f, indent=2)`, which raises `TypeError`
(`json.dumps` accepts one positional argument; the file-writing variant is
`json.dump`), leaving behind an empty snapshot file; a subsequent
`get_latest_snapshot("s1")` then fails with `JSONDecodeError` instead of
returning a snapshot with `state.tasks == ["a"]`. -/
theorem createSnapshot_roundtrip_fails :
    (createSnapshot c4Store "s1" ⟨["a"]⟩).1
      = Except.error "TypeError: dumps() takes 1 positional argument but 2 were given"
    ∧ getLatestSnapshot (createSnapshot c4Store "s1" ⟨["a"]⟩).2 (some "s1")
      = Except.error "JSONDecodeError" :=
  ⟨rfl, rfl⟩
